import Mathlib

/-!
Verification development for the kube-MCP server's dispatch core.

The definitions below are shallow embeddings of the TypeScript source:

* `SecurityManager` (src/security/manager.ts): `matchesPattern`, `matchesRule`,
  `evaluatePolicy`, `checkRateLimit`, `validateAccess`, and the two built-in
  policies installed by the constructor.
* `ToolManager.execute` and the server's CallTool request handler
  (src/tools/manager.ts, src/server.ts).
* `PromptManager.getPrompt` and the server's GetPrompt request handler.
* `KubernetesManager.loadKubeConfig` / `testConnection` and the surrounding
  init sequence (src/kubernetes/manager.ts).
* The `/call-tool-chunked` streaming endpoint (src/server.ts).
* `getAge` (src/kubernetes/kubectl.ts and src/tools/manager.ts).
* `ResourceManager.readResource` / `handlePodResource`
  (src/resources/manager.ts) together with a model of WHATWG URL parsing for
  non-special schemes, which is what Node's `new URL` performs on
  `k8s-pod://...` URIs.

JavaScript dynamic values appearing in rule conditions and tool parameters are
modelled by the closed type `Val`; thrown exceptions are modelled by
`Except String`; `Map` objects become association lists in insertion order;
millisecond clock readings become integers (`Int`), except in `getAge` where
the claims restrict attention to past timestamps and `Nat` arithmetic
coincides with the source's `Math.floor` computations.
-/

namespace KubeMCP

/-- Structural prefix test on character lists (the computational core of the
string predicates below; Lean's own `String.startsWith` does not reduce inside
the kernel, so the embeddings work on `List Char`). -/
def charsPrefix : List Char → List Char → Bool
  | [], _ => true
  | _ :: _, [] => false
  | c :: cs, d :: ds => if c = d then charsPrefix cs ds else false

/-- `String.startsWith`. -/
def strStartsWith (s pre : String) : Bool :=
  charsPrefix pre.toList s.toList

/-- `String.endsWith`. -/
def strEndsWith (s suf : String) : Bool :=
  charsPrefix suf.toList.reverse s.toList.reverse

/-- `String.dropRight` (`pattern.slice(0, -1)`). -/
def strDropRight (s : String) (n : Nat) : String :=
  String.mk (s.toList.take (s.toList.length - n))

/-- `String.drop` (`pattern.slice(1)`). -/
def strDrop (s : String) (n : Nat) : String :=
  String.mk (s.toList.drop n)

/-- Split a character list on a separator character (JavaScript
`string.split(sep)`, which keeps empty pieces). -/
def splitChar (c : Char) : List Char → List (List Char)
  | [] => [[]]
  | x :: xs =>
    match splitChar c xs with
    | [] => [[]]
    | y :: ys => if x = c then [] :: y :: ys else (x :: y) :: ys

/-- Split at the first occurrence of a character: `some (before, after)`, or
`none` when the character does not occur. -/
def breakChar (c : Char) : List Char → Option (List Char × List Char)
  | [] => none
  | x :: xs =>
    if x = c then some ([], xs)
    else
      match breakChar c xs with
      | none => none
      | some p => some (x :: p.1, p.2)

/-- A JavaScript scalar value as it can appear in tool-call parameters and in
security-rule conditions (strings, numbers, booleans). -/
inductive Val
  | str (s : String)
  | num (n : Int)
  | bool (b : Bool)
deriving DecidableEq, Repr

/-- A security-rule condition value: either a scalar (matched with `===`) or a
list (matched with `includes`). -/
inductive CondVal
  | scalar (v : Val)
  | list (vs : List Val)
deriving DecidableEq, Repr

/-- A parameter record (`Record<string, any>`), as an association list. -/
abbrev Params := List (String × Val)

/-- The `action` field of a security rule. -/
inductive RuleAction
  | allow
  | deny
deriving DecidableEq, Repr

/-- `SecurityRule` from src/security/manager.ts: action, resource pattern,
optional operation whitelist, optional parameter conditions. -/
structure SecurityRule where
  action : RuleAction
  resource : String
  operations : Option (List String) := none
  conditions : Option (List (String × CondVal)) := none
deriving DecidableEq, Repr

/-- `SecurityPolicy`: a named ordered rule list. -/
structure SecurityPolicy where
  name : String
  rules : List SecurityRule
deriving DecidableEq, Repr

/-- `SecurityManager.matchesPattern`: `*` matches everything, a trailing `*`
makes a prefix pattern, a leading `*` makes a suffix pattern, otherwise the
match is exact.  The source tests the trailing-star case first. -/
def matchesPattern (pattern resource : String) : Bool :=
  if pattern = "*" then true
  else if strEndsWith pattern "*" then strStartsWith resource (strDropRight pattern 1)
  else if strStartsWith pattern "*" then strEndsWith resource (strDrop pattern 1)
  else pattern = resource

/-- One condition entry check inside `matchesRule`: list conditions require
membership of the supplied parameter value, scalar conditions require strict
equality; an absent parameter (`undefined`) fails either form. -/
def condHolds (ps : Params) (kv : String × CondVal) : Bool :=
  match kv.2 with
  | CondVal.list vs =>
    match ps.lookup kv.1 with
    | some v => vs.contains v
    | none => false
  | CondVal.scalar v =>
    match ps.lookup kv.1 with
    | some pv => pv = v
    | none => false

/-- `SecurityManager.matchesRule`: the resource pattern must match, the
operation must be in the whitelist when one is present, and when both a
conditions record and a params record are present every condition must hold
(`if (rule.conditions && params)` in the source: with `params` undefined the
conditions are skipped). -/
def matchesRule (rule : SecurityRule) (resource operation : String)
    (params : Option Params) : Bool :=
  if !matchesPattern rule.resource resource then false
  else if (match rule.operations with
           | some ops => !ops.contains operation
           | none => false) then false
  else
    match rule.conditions, params with
    | some conds, some ps => conds.all (condHolds ps)
    | _, _ => true

/-- The loop body of `evaluatePolicy`: a matching rule overwrites the
accumulator with its action ("last matching rule wins"). -/
def ruleStep (resource operation : String) (params : Option Params)
    (allowed : Bool) (rule : SecurityRule) : Bool :=
  if matchesRule rule resource operation params then rule.action = RuleAction.allow
  else allowed

/-- `SecurityManager.evaluatePolicy`: default to deny, then fold over the rules
in registration order keeping the action of the last matching rule. -/
def evaluatePolicy (policy : SecurityPolicy) (resource operation : String)
    (params : Option Params) : Bool :=
  policy.rules.foldl (ruleStep resource operation params) false

/-- Spec-side restatement of the policy-combination semantics (from the spec:
"the last matching rule's action determines the outcome; if no rule matches,
the outcome is deny"): find the last matching rule and take its action. -/
def lastMatchOutcome (rules : List SecurityRule) (resource operation : String)
    (params : Option Params) : Bool :=
  match rules.reverse.find? (fun r => matchesRule r resource operation params) with
  | some r => r.action = RuleAction.allow
  | none => false

/-- The `default` policy installed by the `SecurityManager` constructor. -/
def defaultPolicy : SecurityPolicy :=
  { name := "default"
    rules :=
      [ { action := RuleAction.allow, resource := "tools/*",
          operations := some ["execute"] }
      , { action := RuleAction.allow, resource := "resources/*",
          operations := some ["read"] }
      , { action := RuleAction.allow, resource := "prompts/*",
          operations := some ["generate"] } ] }

/-- The `strict` policy installed by the `SecurityManager` constructor. -/
def strictPolicy : SecurityPolicy :=
  { name := "strict"
    rules :=
      [ { action := RuleAction.deny, resource := "tools/kubectl",
          operations := some ["execute"],
          conditions := some [("command",
            CondVal.list [Val.str "delete", Val.str "apply", Val.str "create"])] }
      , { action := RuleAction.deny, resource := "resources/k8s-secret",
          operations := some ["read"] }
      , { action := RuleAction.allow, resource := "tools/get_*",
          operations := some ["execute"] }
      , { action := RuleAction.allow, resource := "resources/k8s-pod",
          operations := some ["read"] } ] }

/-- The policy table as populated by the constructor (a `Map` in insertion
order). -/
def builtinPolicies : List (String × SecurityPolicy) :=
  [("default", defaultPolicy), ("strict", strictPolicy)]

/-- The example rule list from the spec: `[allow *, deny tools/kubectl]`. -/
def examplePolicy : SecurityPolicy :=
  { name := "example"
    rules :=
      [ { action := RuleAction.allow, resource := "*" }
      , { action := RuleAction.deny, resource := "tools/kubectl" } ] }

/-- `RateLimitState` from src/security/manager.ts: per-identity request
timestamps plus the time of the last prune. -/
structure RateLimitState where
  requests : List Int
  lastCleanup : Int
deriving DecidableEq, Repr

/-- The `rateLimits` map, keyed by identity, in insertion order. -/
abbrev RateLimits := List (String × RateLimitState)

/-- `Map.set` semantics: replace the value of an existing key in place,
otherwise append a new entry. -/
def setEntry : RateLimits → String → RateLimitState → RateLimits
  | [], k, v => [(k, v)]
  | (k1, v1) :: rest, k, v =>
    if k1 = k then (k1, v) :: rest else (k1, v1) :: setEntry rest k v

/-- `SecurityManager.checkRateLimit`: prune the identity's window to the
timestamps `t` with `now - t < windowMs`, deny when the pruned window already
holds at least `maxRequests` entries, otherwise append `now` and allow.  On the
deny path the source does not call `Map.set`, but when the state object was
already in the map it has been pruned in place (object aliasing); a fresh
default object is simply discarded.  Both cases are modelled. -/
def checkRateLimit (windowMs : Int) (maxRequests : Nat) (now : Int)
    (rl : RateLimits) (userId : String) : Bool × RateLimits :=
  let stOld := rl.lookup userId
  let st := stOld.getD { requests := [], lastCleanup := now }
  let pruned := st.requests.filter (fun t => now - t < windowMs)
  if maxRequests ≤ pruned.length then
    (false,
      match stOld with
      | some _ => setEntry rl userId { requests := pruned, lastCleanup := now }
      | none => rl)
  else
    (true, setEntry rl userId { requests := pruned ++ [now], lastCleanup := now })

/-- Repeated calls to `checkRateLimit` for one identity at the given clock
readings, returning the allow/deny verdicts in order. -/
def rateLimitRun (windowMs : Int) (maxRequests : Nat) (userId : String) :
    List Int → RateLimits → List Bool
  | [], _ => []
  | t :: ts, rl =>
    let r := checkRateLimit windowMs maxRequests t rl userId
    r.1 :: rateLimitRun windowMs maxRequests userId ts r.2

/-- The fields of `SecurityContext` consulted by `validateAccess` (only
`userId` is read; `groups`, `permissions` and `source` are never used). -/
structure SecurityContext where
  userId : Option String := none
deriving DecidableEq, Repr

/-- The two rate-limit configuration values read from `config.security`. -/
structure SecurityConfig where
  rateLimitWindowMs : Int
  rateLimitMaxRequests : Nat
deriving DecidableEq, Repr

/-- `SecurityManager.getApplicablePolicy`: always looks up the fixed name
`default`.  The non-null assertion `this.policies.get('default')!` means a
missing entry surfaces later as a thrown `TypeError`, modelled as an error. -/
def getApplicablePolicy (policies : List (String × SecurityPolicy)) :
    Except String SecurityPolicy :=
  match policies.lookup "default" with
  | some p => Except.ok p
  | none => Except.error "TypeError: undefined policy"

/-- The catch-all around the body of `validateAccess`: a thrown exception is
converted into a deny. -/
def tryCatchDeny (body : Except String Bool) : Bool :=
  match body with
  | Except.ok b => b
  | Except.error _ => false

/-- `SecurityManager.validateAccess`: rate limit first (identity
`userId ?? "anonymous"`), returning false on a rate-limit deny without touching
the rules; otherwise evaluate the applicable policy; any exception in the body
is caught and turned into a deny.  Returns the decision together with the
updated rate-limit map. -/
def validateAccess (cfg : SecurityConfig) (policies : List (String × SecurityPolicy))
    (rl : RateLimits) (now : Int) (ctx : SecurityContext)
    (resource operation : String) (params : Option Params) : Bool × RateLimits :=
  let userId := ctx.userId.getD "anonymous"
  let r := checkRateLimit cfg.rateLimitWindowMs cfg.rateLimitMaxRequests now rl userId
  let body : Except String Bool :=
    if !r.1 then Except.ok false
    else
      (getApplicablePolicy policies).map
        (fun policy => evaluatePolicy policy resource operation params)
  (tryCatchDeny body, r.2)

/-- One content part of a `ToolResult` (`{type, text?}`; the `data`, `uri` and
`mimeType` fields are never produced by the embedded paths). -/
structure ContentPart where
  type : String
  text : Option String
deriving DecidableEq, Repr

/-- `ToolResult` from src/tools/manager.ts (`isError` defaults to false when
omitted). -/
structure ToolResult where
  content : List ContentPart
  isError : Bool := false
deriving DecidableEq, Repr

/-- `ToolHandler`: a registered tool; its handler may throw. -/
structure ToolHandler where
  name : String
  handler : Option Params → Except String ToolResult

/-- `ToolManager.execute`: an unregistered name throws (outside the try
block); a handler-thrown error is caught and contained into an error-flagged
envelope whose text quotes the message. -/
def executeTool (tools : List (String × ToolHandler)) (name : String)
    (args : Option Params) : Except String ToolResult :=
  match tools.lookup name with
  | none => Except.error ("Tool \x27" ++ name ++ "\x27 not found")
  | some h =>
    match h.handler args with
    | Except.ok r => Except.ok r
    | Except.error e =>
      Except.ok
        { content := [{ type := "text",
                        text := some ("Error executing tool \x27" ++ name ++ "\x27: " ++ e) }],
          isError := true }

/-- The MCP-format response of the CallTool request handler. -/
structure CallToolResponse where
  content : List ContentPart
  isError : Bool
deriving DecidableEq, Repr

/-- The server's CallTool request handler (src/server.ts): it awaits
`validateAccess` but (per the source) discards the returned boolean, then runs
`ToolManager.execute`; a thrown error is caught and returned as an
error-flagged envelope. -/
def callToolHandler (cfg : SecurityConfig) (policies : List (String × SecurityPolicy))
    (rl : RateLimits) (now : Int) (tools : List (String × ToolHandler))
    (name : String) (args : Option Params) : CallToolResponse × RateLimits :=
  let v := validateAccess cfg policies rl now {} name "execute" args
  match executeTool tools name args with
  | Except.ok r => ({ content := r.content, isError := r.isError }, v.2)
  | Except.error e =>
    ({ content := [{ type := "text",
                     text := some ("Error executing tool " ++ name ++ ": " ++ e) }],
       isError := true }, v.2)

/-- A rendered prompt (`GetPromptResult`): description plus message texts. -/
structure PromptResult where
  description : String
  messages : List String
deriving DecidableEq, Repr

/-- A registered prompt handler; its handler may throw. -/
structure PromptHandler where
  name : String
  handler : List (String × String) → Except String PromptResult

/-- `PromptManager.getPrompt`: an unregistered name throws; a handler-thrown
error is logged and RETHROWN (the catch block ends in `throw error`). -/
def getPrompt (prompts : List (String × PromptHandler)) (name : String)
    (args : Option (List (String × String))) : Except String PromptResult :=
  match prompts.lookup name with
  | none => Except.error ("Prompt not found: " ++ name)
  | some h =>
    match h.handler (args.getD []) with
    | Except.ok r => Except.ok r
    | Except.error e => Except.error e

/-- The server's GetPrompt request handler (src/server.ts): it catches a
thrown error only to record metrics and log, then rethrows it to the caller. -/
def getPromptDispatch (prompts : List (String × PromptHandler)) (name : String)
    (args : Option (List (String × String))) : Except String PromptResult :=
  match getPrompt prompts name args with
  | Except.ok r => Except.ok r
  | Except.error e => Except.error e

/-- The six credential sources of `KubernetesManager.loadKubeConfig`, in their
fixed priority order. -/
inductive CredSource
  | inCluster
  | inlineYaml
  | inlineJson
  | serverToken
  | customPath
  | defaultPath
deriving DecidableEq, Repr

/-- The environment consumed by the credential loaders.  Fields ending in
`Load` stand for the outcomes of the external `@kubernetes/client-node` parse
calls (`loadFromCluster`, `loadFromString`, `loadFromOptions`,
`loadFromFile`, `loadFromDefault`), which may throw. -/
structure K8sEnv where
  runningInCluster : Bool
  clusterLoad : Except String Unit
  kubeconfigYaml : Option String
  yamlLoad : Except String Unit
  kubeconfigJson : Option String
  jsonLoad : Except String Unit
  server : Option String
  token : Option String
  optionsLoad : Except String Unit
  kubeconfigPath : Option String
  customPathExists : Bool
  fileLoad : Except String Unit
  defaultPathExists : Bool
  defaultLoad : Except String Unit

/-- `loadFromInCluster`: requires the service-account directory then loads. -/
def loadFromInCluster (env : K8sEnv) : Except String Unit :=
  if env.runningInCluster then env.clusterLoad
  else Except.error "Not running in cluster"

/-- `loadFromEnvironmentYaml`: requires `KUBECONFIG_YAML` then parses it. -/
def loadFromEnvironmentYaml (env : K8sEnv) : Except String Unit :=
  match env.kubeconfigYaml with
  | none => Except.error "KUBECONFIG_YAML not provided"
  | some _ => env.yamlLoad

/-- `loadFromEnvironmentJson`: requires `KUBECONFIG_JSON` then parses it. -/
def loadFromEnvironmentJson (env : K8sEnv) : Except String Unit :=
  match env.kubeconfigJson with
  | none => Except.error "KUBECONFIG_JSON not provided"
  | some _ => env.jsonLoad

/-- `loadFromMinimalConfig`: requires both `K8S_SERVER` and `K8S_TOKEN`. -/
def loadFromMinimalConfig (env : K8sEnv) : Except String Unit :=
  match env.server, env.token with
  | some _, some _ => env.optionsLoad
  | _, _ => Except.error "K8S_SERVER and K8S_TOKEN not provided"

/-- `loadFromCustomPath`: requires `KUBECONFIG_PATH` and an existing file. -/
def loadFromCustomPath (env : K8sEnv) : Except String Unit :=
  match env.kubeconfigPath with
  | none => Except.error "KUBECONFIG_PATH not provided"
  | some p =>
    if env.customPathExists then env.fileLoad
    else Except.error ("Kubeconfig file not found: " ++ p)

/-- `loadFromDefaultPath`: requires `~/.kube/config` to exist. -/
def loadFromDefaultPath (env : K8sEnv) : Except String Unit :=
  if env.defaultPathExists then env.defaultLoad
  else Except.error "Default kubeconfig file not found"

/-- The `authMethods` array of `loadKubeConfig`, tagged with its sources, in
the order the source lists them. -/
def authMethods (env : K8sEnv) : List (CredSource × Except String Unit) :=
  [ (CredSource.inCluster, loadFromInCluster env)
  , (CredSource.inlineYaml, loadFromEnvironmentYaml env)
  , (CredSource.inlineJson, loadFromEnvironmentJson env)
  , (CredSource.serverToken, loadFromMinimalConfig env)
  , (CredSource.customPath, loadFromCustomPath env)
  , (CredSource.defaultPath, loadFromDefaultPath env) ]

/-- The loop of `loadKubeConfig`: try each method in order, returning at the
first success, remembering the last error; after the loop, throw
`Failed to load kubeconfig: <last error>`. -/
def loadKubeConfigLoop :
    List (CredSource × Except String Unit) → Option String → Except String CredSource
  | [], lastE =>
    Except.error ("Failed to load kubeconfig: " ++ lastE.getD "undefined")
  | m :: ms, _ =>
    match m.2 with
    | Except.ok _ => Except.ok m.1
    | Except.error e => loadKubeConfigLoop ms (some e)

/-- `KubernetesManager.loadKubeConfig`, returning which credential source was
selected. -/
def loadKubeConfig (env : K8sEnv) : Except String CredSource :=
  loadKubeConfigLoop (authMethods env) none

/-- `KubernetesManager.testConnection`: probe the cluster by listing
namespaces, wrapping a failure message. -/
def testConnection (probe : Except String Unit) : Except String Unit :=
  match probe with
  | Except.ok _ => Except.ok ()
  | Except.error e => Except.error ("Kubernetes connection test failed: " ++ e)

/-- `KubernetesManager.initialize` (the part the claim is about): load the
kubeconfig through the waterfall, build the API clients (pure), then probe
connectivity; a probe failure propagates out of the whole initialization.  The
optional post-probe context override from `config.kubernetes.context` is not
modelled (it does not affect source selection or the probe). -/
def managerInit (env : K8sEnv) (probe : Except String Unit) :
    Except String CredSource := do
  let src ← loadKubeConfig env
  let _ ← testConnection probe
  pure src

/-- One newline-delimited JSON frame written by `/call-tool-chunked`. -/
inductive Frame
  | progress (n : Nat)
  | done (r : ToolResult)
  | fail (e : String)
deriving DecidableEq, Repr

/-- An observable event of the streaming endpoint: a chunk write, the point
where the tool call is dispatched, and the closing of the connection. -/
inductive StreamEv
  | write (f : Frame)
  | dispatch
  | close
deriving DecidableEq, Repr

/-- The five synthetic progress frames the endpoint writes
(`{progress: 20} ... {progress: 100}`). -/
def progressFrames : List Frame :=
  (List.range 5).map (fun i => Frame.progress ((i + 1) * 20))

/-- The `/call-tool-chunked` request handler (src/server.ts): write the five
progress frames, then dispatch `ToolManager.execute`; on success write
`{status: "done", result}`, on a thrown error write `{error: message}`; end the
response either way. -/
def callToolChunked (tools : List (String × ToolHandler)) (name : String)
    (args : Option Params) : List StreamEv :=
  progressFrames.map StreamEv.write ++ [StreamEv.dispatch] ++
    (match executeTool tools name args with
     | Except.ok r => [StreamEv.write (Frame.done r)]
     | Except.error e => [StreamEv.write (Frame.fail e)]) ++ [StreamEv.close]

/-- The arithmetic core of `getAge` (identical in kubectl.ts and
tools/manager.ts), for a nonnegative elapsed time in milliseconds: JavaScript
computes `Math.floor` of each quotient, which on nonnegative input is `Nat`
division. -/
def getAgeMs (diffMs : Nat) : String :=
  let diffMins := diffMs / (1000 * 60)
  if diffMins < 60 then toString diffMins ++ "m"
  else
    let diffHours := diffMins / 60
    if diffHours < 24 then toString diffHours ++ "h"
    else
      let diffDays := diffHours / 24
      toString diffDays ++ "d"

/-- `getAge`: a missing (falsy) creation timestamp renders "unknown";
otherwise the elapsed time from the creation instant to `now` is formatted.
The claims restrict attention to creation timestamps in the past, where the
`Nat` subtraction agrees with the source's number subtraction. -/
def getAge (creationTimestamp : Option Nat) (now : Nat) : String :=
  match creationTimestamp with
  | none => "unknown"
  | some created => getAgeMs (now - created)

/-- The components of a WHATWG URL that `handlePodResource` consults.  For a
non-special scheme such as `k8s-pod:`, Node's `new URL` treats the part after
`//` and before the next `/` as the authority (host); the pathname starts at
that `/`. -/
structure ParsedURL where
  scheme : String
  host : String
  pathname : String
deriving DecidableEq, Repr

/-- WHATWG parsing of `scheme://authority/path` URIs (the shape of every URI
the resource manager deals with): the text between `//` and the next `/` is
the host, the rest (with its leading slash) is the pathname.  Anything not of
this shape is rejected like `new URL` would throw. -/
def parseURL (uri : String) : Except String ParsedURL :=
  match breakChar ':' uri.toList with
  | some (sch, '/' :: '/' :: rest) =>
    if sch = [] then Except.error ("Invalid URL: " ++ uri)
    else
      match breakChar '/' rest with
      | none =>
        Except.ok { scheme := String.mk sch, host := String.mk rest, pathname := "" }
      | some hp =>
        Except.ok { scheme := String.mk sch, host := String.mk hp.1,
                    pathname := String.mk ('/' :: hp.2) }
  | _ => Except.error ("Invalid URL: " ++ uri)

/-- `ResourceContent` (`{uri, mimeType, text}`). -/
structure ResourceContent where
  uri : String
  mimeType : String
  text : String
deriving DecidableEq, Repr

/-- `ResourceManager.handlePodResource`: split the URL pathname into its
non-empty segments; fewer than two segments throws the validation error naming
the expected template; otherwise the first is the namespace and the second the
pod name, and the pod is read through the core API (`podRead name namespace`
models `readNamespacedPod`). -/
def handlePodResource (podRead : String → String → Except String String)
    (uri : String) : Except String ResourceContent := do
  let url ← parseURL uri
  let pathParts := ((splitChar '/' url.pathname.toList).map String.mk).filter
    (fun p => p ≠ "")
  match pathParts with
  | ns :: podName :: _ =>
    match podRead podName ns with
    | Except.ok body =>
      Except.ok { uri := uri, mimeType := "application/json", text := body }
    | Except.error e => Except.error e
  | _ =>
    Except.error
      "Pod resource URI must include namespace and pod name: k8s-pod://namespace/podname"

/-- A registered resource handler (scheme plus handler function). -/
structure ResourceHandler where
  scheme : String
  handler : String → Except String ResourceContent

/-- `ResourceManager.readResource`: parse the URI, look the scheme up in the
handler map (`url.protocol.slice(0, -1)`), throw for an unknown scheme, else
delegate to the handler; errors are logged and rethrown. -/
def readResource (handlers : List (String × ResourceHandler)) (uri : String) :
    Except String ResourceContent := do
  let url ← parseURL uri
  match handlers.lookup url.scheme with
  | none => Except.error ("No handler found for scheme: " ++ url.scheme ++ ":")
  | some h => h.handler uri

/-- A pod-read stub that always succeeds, recording which coordinates were
requested; used to show that the failures below do not come from the cluster
read. -/
def demoPodRead (podName ns : String) : Except String String :=
  Except.ok ("pod " ++ ns ++ "/" ++ podName)

/-- The resource-handler table restricted to the `k8s-pod` scheme, as
`registerResources` installs it. -/
def podResourceHandlers (podRead : String → String → Except String String) :
    List (String × ResourceHandler) :=
  [("k8s-pod", { scheme := "k8s-pod", handler := handlePodResource podRead })]

/-- An error-flagged text part, as the containment paths build it. -/
def errorTextPart (msg : String) : ContentPart :=
  { type := "text", text := some msg }

/-- A demonstration tool handler standing in for a registered tool whose
handler succeeds (the per-tool handlers are mechanical cluster calls outside
the dispatch core). -/
def demoPodsResult : ToolResult :=
  { content := [{ type := "text", text := some "NAME  READY  STATUS" }] }

/-- A tool table containing only the demonstration `get_pods` tool. -/
def demoTools : List (String × ToolHandler) :=
  [("get_pods", { name := "get_pods", handler := fun _ => Except.ok demoPodsResult })]

/-- A prompt whose handler throws, for the C5 witness. -/
def demoFailingPrompt : PromptHandler :=
  { name := "pod-diagnostics", handler := fun _ => Except.error "Pod name is required" }

/-- A tool whose handler throws, for the C5 witness. -/
def demoFailingTool : ToolHandler :=
  { name := "kubectl", handler := fun _ => Except.error "Unsupported command" }

/-- An environment in which the in-cluster source fails and the inline-YAML
source parses, for the C6 witness. -/
def demoEnv : K8sEnv :=
  { runningInCluster := false, clusterLoad := Except.ok ()
  , kubeconfigYaml := some "apiVersion: v1", yamlLoad := Except.ok ()
  , kubeconfigJson := none, jsonLoad := Except.ok ()
  , server := none, token := none, optionsLoad := Except.ok ()
  , kubeconfigPath := none, customPathExists := false, fileLoad := Except.ok ()
  , defaultPathExists := false, defaultLoad := Except.ok () }

/-- The fold of `evaluatePolicy` equals taking the last matching rule's action
(with `acc` as default): the bridge between the loop and the spec's reading. -/
theorem foldl_ruleStep (res op : String) (ps : Option Params) :
    ∀ (rules : List SecurityRule) (acc : Bool),
      rules.foldl (ruleStep res op ps) acc =
        match rules.reverse.find? (fun r => matchesRule r res op ps) with
        | some r => decide (r.action = RuleAction.allow)
        | none => acc := by
  intro rules
  induction rules with
  | nil => intro acc; rfl
  | cons r rs ih =>
    intro acc
    rw [List.foldl_cons, ih, List.reverse_cons, List.find?_append]
    cases h : rs.reverse.find? (fun x => matchesRule x res op ps) with
    | some x => simp [Option.or]
    | none =>
      cases hm : matchesRule r res op ps with
      | true => simp [Option.or, List.find?, hm, ruleStep]
      | false => simp [Option.or, List.find?, hm, ruleStep]

/-- C2: policy evaluation folds over the rules in registration order keeping
the last matching rule's action, denying when no rule matches; under the
example rules `[allow *, deny tools/kubectl]` the resource `tools/kubectl` is
denied and `tools/get_pods` is allowed. -/
theorem evaluatePolicy_last_match_wins :
    (∀ (rules : List SecurityRule) (nm res op : String) (ps : Option Params),
        evaluatePolicy { name := nm, rules := rules } res op ps
          = lastMatchOutcome rules res op ps)
      ∧ evaluatePolicy examplePolicy "tools/kubectl" "execute" none = false
      ∧ evaluatePolicy examplePolicy "tools/get_pods" "execute" none = true := by
  refine ⟨?_, by decide, by decide⟩
  intro rules nm res op ps
  unfold evaluatePolicy lastMatchOutcome
  rw [foldl_ruleStep]

/-- Updating an entry and looking it up returns the written value. -/
theorem lookup_setEntry (k : String) (v : RateLimitState) :
    ∀ m : RateLimits, (setEntry m k v).lookup k = some v := by
  intro m
  induction m with
  | nil => simp [setEntry, List.lookup]
  | cons kv rest ih =>
    obtain ⟨k1, v1⟩ := kv
    by_cases h : k1 = k
    · subst h; simp [setEntry, List.lookup]
    · have hne : (k == k1) = false := by
        simp only [beq_eq_false_iff_ne]
        exact fun hh => h hh.symm
      simp [setEntry, h, List.lookup, hne, ih]

/-- C3: `checkRateLimit` first prunes the identity's window to the timestamps
within `windowMs` of `now`, denies when the pruned window already holds at
least `maxRequests` entries, and otherwise appends `now` and allows; with
window 60000 ms and max 3, four calls inside one window yield
allow, allow, allow, deny, and a call after the window has elapsed is allowed
again. -/
theorem checkRateLimit_sliding_window :
    (∀ (w : Int) (mx : Nat) (now : Int) (rl : RateLimits) (u : String),
        ((checkRateLimit w mx now rl u).1 = false ↔
          mx ≤ (((rl.lookup u).getD { requests := [], lastCleanup := now }).requests.filter
                  (fun t => now - t < w)).length)
        ∧ (¬ mx ≤ (((rl.lookup u).getD { requests := [], lastCleanup := now }).requests.filter
                  (fun t => now - t < w)).length →
            (checkRateLimit w mx now rl u).1 = true
            ∧ ((checkRateLimit w mx now rl u).2.lookup u) =
                some { requests :=
                        (((rl.lookup u).getD { requests := [], lastCleanup := now }).requests.filter
                          (fun t => now - t < w)) ++ [now],
                       lastCleanup := now }))
      ∧ rateLimitRun 60000 3 "anonymous" [0, 10, 20, 30] [] = [true, true, true, false]
      ∧ rateLimitRun 60000 3 "anonymous" [0, 10, 20, 30, 60040] []
          = [true, true, true, false, true] := by
  refine ⟨?_, by decide, by decide⟩
  intro w mx now rl u
  constructor
  · simp only [checkRateLimit]
    split
    next h => simp [h]
    next h => simp [h]
  · intro h
    simp only [checkRateLimit]
    rw [if_neg h]
    exact ⟨rfl, lookup_setEntry u _ rl⟩

/-- C3 witness: a first call on an empty window is allowed and recorded. -/
theorem checkRateLimit_sliding_window_witness :
    (checkRateLimit 60000 3 0 [] "anonymous").1 = true
    ∧ ((checkRateLimit 60000 3 0 [] "anonymous").2.lookup "anonymous") =
        some { requests := [0], lastCleanup := 0 } :=
  (checkRateLimit_sliding_window.1 60000 3 0 [] "anonymous").2 (by decide)

/-- C4: access validation is fail-closed: the rate limiter runs first and its
deny short-circuits rule evaluation (the decision is then independent of the
policy table), an exception inside the body (the broken `default` lookup) is
converted into a deny rather than propagated, and the rate-limit map update of
`checkRateLimit` is always applied. -/
theorem validateAccess_fail_closed :
    ∀ (cfg : SecurityConfig) (policies : List (String × SecurityPolicy))
      (rl : RateLimits) (now : Int) (ctx : SecurityContext)
      (res op : String) (ps : Option Params),
      ((checkRateLimit cfg.rateLimitWindowMs cfg.rateLimitMaxRequests now rl
          (ctx.userId.getD "anonymous")).1 = false →
        (validateAccess cfg policies rl now ctx res op ps).1 = false
        ∧ ∀ policies2, validateAccess cfg policies2 rl now ctx res op ps
            = validateAccess cfg policies rl now ctx res op ps)
      ∧ (policies.lookup "default" = none →
          (validateAccess cfg policies rl now ctx res op ps).1 = false)
      ∧ (validateAccess cfg policies rl now ctx res op ps).2 =
          (checkRateLimit cfg.rateLimitWindowMs cfg.rateLimitMaxRequests now rl
            (ctx.userId.getD "anonymous")).2 := by
  intro cfg policies rl now ctx res op ps
  refine ⟨?_, ?_, rfl⟩
  · intro h
    constructor
    · simp [validateAccess, h, tryCatchDeny]
    · intro policies2
      simp [validateAccess, h]
  · intro h
    cases hr : (checkRateLimit cfg.rateLimitWindowMs cfg.rateLimitMaxRequests now rl
        (ctx.userId.getD "anonymous")).1 with
    | false => simp [validateAccess, hr, tryCatchDeny]
    | true => simp [validateAccess, hr, getApplicablePolicy, h, tryCatchDeny, Except.map]

/-- C4 witness: with a zero-size limit the rate limiter denies and the overall
decision is deny; with an empty policy table the broken lookup is caught and
the decision is deny. -/
theorem validateAccess_fail_closed_witness :
    ((validateAccess { rateLimitWindowMs := 60000, rateLimitMaxRequests := 0 }
        builtinPolicies [] 0 {} "tools/get_pods" "execute" none).1 = false)
    ∧ ((validateAccess { rateLimitWindowMs := 60000, rateLimitMaxRequests := 100 }
        [] [] 0 {} "tools/get_pods" "execute" none).1 = false) :=
  ⟨((validateAccess_fail_closed { rateLimitWindowMs := 60000, rateLimitMaxRequests := 0 }
      builtinPolicies [] 0 {} "tools/get_pods" "execute" none).1 (by decide)).1,
   (validateAccess_fail_closed { rateLimitWindowMs := 60000, rateLimitMaxRequests := 100 }
      [] [] 0 {} "tools/get_pods" "execute" none).2.1 rfl⟩

/-- C1 (evaluating the code at the failing input): under the built-in
policies the engine DENIES the call (`validateAccess` returns false, since the
resource key `get_pods` matches no `tools/*` rule), yet the CallTool handler,
which discards that boolean, still executes the tool handler and returns its
success envelope with no authorization error. -/
theorem callTool_runs_handler_despite_deny :
    (validateAccess { rateLimitWindowMs := 60000, rateLimitMaxRequests := 100 }
        builtinPolicies [] 0 {} "get_pods" "execute" none).1 = false
    ∧ (callToolHandler { rateLimitWindowMs := 60000, rateLimitMaxRequests := 100 }
        builtinPolicies [] 0 demoTools "get_pods" none).1
        = { content := demoPodsResult.content, isError := false } :=
  ⟨by decide, rfl⟩

/-- C5 counterexample: a prompt render at the protocol boundary propagates a
raw exception: rendering an unregistered prompt makes the GetPrompt dispatcher
rethrow rather than return an error-flagged envelope. -/
theorem getPrompt_unregistered_propagates :
    getPromptDispatch [] "k8s-pod-diagnostics" none
      = Except.error "Prompt not found: k8s-pod-diagnostics" := rfl

/-- C5 (amended): tool invocation never propagates a raw exception (an
unregistered name and a handler-thrown error both become an error-flagged
envelope with a text part holding the message), while prompt renders propagate
exceptions to the caller: both an unregistered prompt name and a
handler-thrown error are rethrown by the dispatcher. -/
theorem tool_errors_contained_prompt_errors_propagate :
    (∀ (cfg : SecurityConfig) (policies : List (String × SecurityPolicy))
       (rl : RateLimits) (now : Int) (tools : List (String × ToolHandler))
       (name : String) (args : Option Params),
        tools.lookup name = none →
        (callToolHandler cfg policies rl now tools name args).1
          = { content := [errorTextPart ("Error executing tool " ++ name ++ ": "
                ++ ("Tool \x27" ++ name ++ "\x27 not found"))],
              isError := true })
    ∧ (∀ (cfg : SecurityConfig) (policies : List (String × SecurityPolicy))
         (rl : RateLimits) (now : Int) (tools : List (String × ToolHandler))
         (name : String) (args : Option Params) (h : ToolHandler) (msg : String),
        tools.lookup name = some h →
        h.handler args = Except.error msg →
        (callToolHandler cfg policies rl now tools name args).1
          = { content := [errorTextPart ("Error executing tool \x27" ++ name
                ++ "\x27: " ++ msg)],
              isError := true })
    ∧ (∀ (prompts : List (String × PromptHandler)) (name : String)
         (args : Option (List (String × String))),
        prompts.lookup name = none →
        getPromptDispatch prompts name args = Except.error ("Prompt not found: " ++ name))
    ∧ (∀ (prompts : List (String × PromptHandler)) (name : String)
         (args : Option (List (String × String))) (h : PromptHandler) (msg : String),
        prompts.lookup name = some h →
        h.handler (args.getD []) = Except.error msg →
        getPromptDispatch prompts name args = Except.error msg) := by
  refine ⟨?_, ?_, ?_, ?_⟩
  · intro cfg policies rl now tools name args h
    simp [callToolHandler, executeTool, h, errorTextPart, String.append_assoc]
  · intro cfg policies rl now tools name args h msg hl hh
    simp [callToolHandler, executeTool, hl, hh, errorTextPart]
  · intro prompts name args h
    simp [getPromptDispatch, getPrompt, h]
  · intro prompts name args h msg hl hh
    simp [getPromptDispatch, getPrompt, hl, hh]

/-- C5 witness: all four boundary behaviors at concrete inputs. -/
theorem tool_errors_contained_prompt_errors_propagate_witness :
    ((callToolHandler { rateLimitWindowMs := 60000, rateLimitMaxRequests := 100 }
        builtinPolicies [] 0 [] "nope" none).1
      = { content := [errorTextPart ("Error executing tool " ++ "nope" ++ ": "
            ++ ("Tool \x27" ++ "nope" ++ "\x27 not found"))],
          isError := true })
    ∧ ((callToolHandler { rateLimitWindowMs := 60000, rateLimitMaxRequests := 100 }
        builtinPolicies [] 0 [("kubectl", demoFailingTool)] "kubectl" none).1
      = { content := [errorTextPart ("Error executing tool \x27" ++ "kubectl"
            ++ "\x27: " ++ "Unsupported command")],
          isError := true })
    ∧ getPromptDispatch [] "nope" none = Except.error ("Prompt not found: " ++ "nope")
    ∧ getPromptDispatch [("pod-diagnostics", demoFailingPrompt)] "pod-diagnostics" none
        = Except.error "Pod name is required" :=
  ⟨tool_errors_contained_prompt_errors_propagate.1
      { rateLimitWindowMs := 60000, rateLimitMaxRequests := 100 }
      builtinPolicies [] 0 [] "nope" none rfl,
   tool_errors_contained_prompt_errors_propagate.2.1
      { rateLimitWindowMs := 60000, rateLimitMaxRequests := 100 }
      builtinPolicies [] 0 [("kubectl", demoFailingTool)] "kubectl" none
      demoFailingTool "Unsupported command" rfl rfl,
   tool_errors_contained_prompt_errors_propagate.2.2.1 [] "nope" none rfl,
   tool_errors_contained_prompt_errors_propagate.2.2.2
      [("pod-diagnostics", demoFailingPrompt)] "pod-diagnostics" none
      demoFailingPrompt "Pod name is required" rfl rfl⟩

/-- C6: the credential waterfall selects the first source whose loader
succeeds, regardless of what the later sources would do; and when the selected
source parses but the connectivity probe fails, the whole initialization fails
with the wrapped probe error instead of falling through to the remaining
sources. -/
theorem loadKubeConfig_first_success_probe_gates :
    (∀ (pre post : List (CredSource × Except String Unit)) (src : CredSource)
       (lastE : Option String),
        (∀ m ∈ pre, ∃ s, m.2 = Except.error s) →
        loadKubeConfigLoop (pre ++ (src, Except.ok ()) :: post) lastE = Except.ok src)
    ∧ (∀ (env : K8sEnv) (e : String) (src : CredSource),
        loadKubeConfig env = Except.ok src →
        managerInit env (Except.error e)
          = Except.error ("Kubernetes connection test failed: " ++ e)) := by
  constructor
  · intro pre
    induction pre with
    | nil => intro post src lastE _; rfl
    | cons m ms ih =>
      intro post src lastE hpre
      obtain ⟨s, hs⟩ := hpre m (List.mem_cons_self m ms)
      simp only [List.cons_append, loadKubeConfigLoop, hs]
      exact ih post src (some s) (fun x hx => hpre x (List.mem_cons_of_mem m hx))
  · intro env e src h
    unfold managerInit
    rw [h]
    rfl

/-- C6 witness: with the first source failing the second is selected, and a
probe failure aborts initialization with the wrapped error. -/
theorem loadKubeConfig_first_success_probe_gates_witness :
    loadKubeConfigLoop
        [ (CredSource.inCluster, Except.error "Not running in cluster")
        , (CredSource.inlineYaml, Except.ok ()) ] none
      = Except.ok CredSource.inlineYaml
    ∧ managerInit demoEnv (Except.error "connect ECONNREFUSED")
        = Except.error ("Kubernetes connection test failed: " ++ "connect ECONNREFUSED") :=
  ⟨loadKubeConfig_first_success_probe_gates.1
      [(CredSource.inCluster, Except.error "Not running in cluster")] []
      CredSource.inlineYaml none
      (by
        intro m hm
        rw [List.mem_singleton] at hm
        subst hm
        exact ⟨"Not running in cluster", rfl⟩),
   loadKubeConfig_first_success_probe_gates.2 demoEnv "connect ECONNREFUSED"
      CredSource.inlineYaml rfl⟩

/-- C7 (evaluating the code at the failing input): WHATWG URL parsing routes
the first path-looking segment of `k8s-pod://default/my-pod` into the URL
authority, so the pathname is `/my-pod` — a single segment — and the pod
handler throws its own too-few-segments validation error for exactly the
two-segment template its message documents; the one-segment URI fails the same
way; only a URI with an extra leading authority segment reaches the pod read. -/
theorem podResource_template_uri_rejected :
    parseURL "k8s-pod://default/my-pod"
      = Except.ok { scheme := "k8s-pod", host := "default", pathname := "/my-pod" }
    ∧ readResource (podResourceHandlers demoPodRead) "k8s-pod://default/my-pod"
        = Except.error
            "Pod resource URI must include namespace and pod name: k8s-pod://namespace/podname"
    ∧ readResource (podResourceHandlers demoPodRead) "k8s-pod://default"
        = Except.error
            "Pod resource URI must include namespace and pod name: k8s-pod://namespace/podname"
    ∧ readResource (podResourceHandlers demoPodRead) "k8s-pod://x/default/my-pod"
        = Except.ok { uri := "k8s-pod://x/default/my-pod", mimeType := "application/json",
                      text := "pod default/my-pod" } :=
  ⟨rfl, rfl, rfl, rfl⟩

/-- C8: every `/call-tool-chunked` response writes the five configured
progress frames, then dispatches the tool call, then writes exactly one
terminal frame — `done` with the result or `error` with the thrown message —
and closes; in particular an unregistered operation name still gets the
progress frames first and then a terminal error frame. -/
theorem callToolChunked_frame_protocol :
    (progressFrames = [Frame.progress 20, Frame.progress 40, Frame.progress 60,
        Frame.progress 80, Frame.progress 100])
    ∧ (∀ (tools : List (String × ToolHandler)) (name : String) (args : Option Params),
        ∃ term : Frame,
          ((∃ r, term = Frame.done r) ∨ (∃ e, term = Frame.fail e))
          ∧ callToolChunked tools name args
              = progressFrames.map StreamEv.write
                  ++ [StreamEv.dispatch, StreamEv.write term, StreamEv.close])
    ∧ (∀ (tools : List (String × ToolHandler)) (name : String) (args : Option Params),
        tools.lookup name = none →
        callToolChunked tools name args
          = progressFrames.map StreamEv.write
              ++ [StreamEv.dispatch,
                  StreamEv.write (Frame.fail ("Tool \x27" ++ name ++ "\x27 not found")),
                  StreamEv.close]) := by
  refine ⟨by decide, ?_, ?_⟩
  · intro tools name args
    unfold callToolChunked
    cases h : executeTool tools name args with
    | ok r => exact ⟨Frame.done r, Or.inl ⟨r, rfl⟩, by simp⟩
    | error e => exact ⟨Frame.fail e, Or.inr ⟨e, rfl⟩, by simp⟩
  · intro tools name args h
    unfold callToolChunked
    simp [executeTool, h]

/-- C8 witness: the stream for an unregistered operation on an empty tool
table. -/
theorem callToolChunked_frame_protocol_witness :
    callToolChunked [] "get_pods" none
      = progressFrames.map StreamEv.write
          ++ [StreamEv.dispatch,
              StreamEv.write (Frame.fail ("Tool \x27" ++ "get_pods" ++ "\x27 not found")),
              StreamEv.close] :=
  callToolChunked_frame_protocol.2.2 [] "get_pods" none rfl

/-- The three unit thresholds of `getAgeMs`, stated against the raw
millisecond difference: minutes below one hour, hours below one day, days
beyond. -/
theorem getAgeMs_units (d : Nat) :
    (d < 3600000 → getAgeMs d = toString (d / 60000) ++ "m")
    ∧ (3600000 ≤ d → d < 86400000 → getAgeMs d = toString (d / 3600000) ++ "h")
    ∧ (86400000 ≤ d → getAgeMs d = toString (d / 86400000) ++ "d") := by
  unfold getAgeMs
  refine ⟨?_, ?_, ?_⟩
  · intro h
    rw [if_pos (by omega)]
  · intro h1 h2
    rw [if_neg (by omega), if_pos (by omega)]
    have : d / (1000 * 60) / 60 = d / 3600000 := by
      rw [Nat.div_div_eq_div_mul]
    rw [this]
  · intro h1
    rw [if_neg (by omega), if_neg (by omega)]
    have : d / (1000 * 60) / 60 / 24 = d / 86400000 := by
      rw [Nat.div_div_eq_div_mul, Nat.div_div_eq_div_mul]
    rw [this]

/-- C9: for a creation timestamp in the past, the age formatter floors the
elapsed time to whole minutes with suffix `m` under one hour, else whole
hours with suffix `h` under one day, else whole days with suffix `d`; 45
minutes render "45m", 90 minutes "1h", 50 hours "2d", and the flooring is
visible at 45.9 minutes ("45m", not "46m") and 119 minutes ("1h", not "2h"). -/
theorem getAge_floors_to_units :
    (∀ (now created : Nat), created ≤ now →
        ((now - created < 3600000 →
            getAge (some created) now = toString ((now - created) / 60000) ++ "m")
         ∧ (3600000 ≤ now - created → now - created < 86400000 →
            getAge (some created) now = toString ((now - created) / 3600000) ++ "h")
         ∧ (86400000 ≤ now - created →
            getAge (some created) now = toString ((now - created) / 86400000) ++ "d")))
    ∧ getAge (some 0) 2700000 = "45m"
    ∧ getAge (some 0) 5400000 = "1h"
    ∧ getAge (some 0) 180000000 = "2d"
    ∧ getAge (some 0) 2754000 = "45m"
    ∧ getAge (some 0) 7140000 = "1h" := by
  refine ⟨?_, by decide, by decide, by decide, by decide, by decide⟩
  intro now created _
  exact getAgeMs_units (now - created)

/-- C9 witness: the general statement applied at 45 minutes. -/
theorem getAge_floors_to_units_witness :
    getAge (some 0) 2700000 = toString ((2700000 - 0) / 60000) ++ "m" :=
  ((getAge_floors_to_units.1 2700000 0 (by decide)).1 (by decide))

end KubeMCP
